import Mathlib

/-!
Verification of the NREL ATB-calc technology financial-metrics computation
engine against its natural-language specification.

The repository snapshot provides the `lcoe_calculator` package only through
its READMEs and the example notebooks that call it; the Python modules
`base_processor.py`, `macrs.py`, `extractor.py`, `abstract_extractor.py` and
`process_all.py` themselves are not present.  Every definition below that
embeds one of those missing modules is therefore modelled from the
specification text, as its doc comment records.

All money and rate quantities are modelled as rationals (`ℚ`): the spec's
correctness criterion is tolerance-based equality of real-number formulas, so
exact rational arithmetic is the faithful shallow embedding.
-/

namespace ATBCalc

/-- Modelled from the spec: the financial raw inputs extracted for one
scenario (debt fraction, cost of debt, cost of equity, tax rate), consumed by
the WACC stage of `base_processor.py` (module absent from the snapshot). -/
structure FinAssumptions where
  debt_fraction : ℚ
  cost_of_debt : ℚ
  cost_of_equity : ℚ
  tax_rate : ℚ
deriving DecidableEq

/-- Modelled from the spec: `WACC = debt_fraction × cost_of_debt × (1 −
tax_rate) + (1 − debt_fraction) × cost_of_equity` (the WACC stage of the
absent `base_processor.py`). -/
def wacc (debt_fraction cost_of_debt cost_of_equity tax_rate : ℚ) : ℚ :=
  debt_fraction * cost_of_debt * (1 - tax_rate)
    + (1 - debt_fraction) * cost_of_equity

/-- Modelled from the spec: the WACC stage applied to one scenario's
extracted financial assumptions. -/
def waccStage (fin : FinAssumptions) : ℚ :=
  wacc fin.debt_fraction fin.cost_of_debt fin.cost_of_equity fin.tax_rate

/-- Modelled from the spec: the construction finance factor compounds
financing cost over the construction schedule (fractional capital spend per
construction year) at the WACC discount rate, yielding the multiplier on
overnight capital cost.  The exact compounding exponent convention of the
absent `base_processor.py` is not given by the spec; the claims checked here
use CFF only as a value, so any fixed pure compounding is faithful. -/
def cff (constructionSchedule : List ℚ) (discountRate : ℚ) : ℚ :=
  (constructionSchedule.enum.map
    (fun p => p.2 * (1 + discountRate) ^ p.1)).sum

/-- Modelled from the spec: CAPEX is the overnight capital cost multiplied by
the construction finance factor (stage 5 of the pipeline in the absent
`base_processor.py`). -/
def capex (occ cffVal : ℚ) : ℚ := occ * cffVal

/-- Modelled from the spec: `LCOE = (FCR × CAPEX + fixed O&M) / (NCF × 8760)
+ variable O&M [+ fuel-related terms]`, with capital terms in $/kW and LCOE
in $/MWh, so the capacity-normalized annual cost is converted from $/kWh to
$/MWh by the factor 1000 (the spec fixes the output unit as $/MWh). -/
def lcoe (fcr capexVal fom ncf vom fuelTerm : ℚ) : ℚ :=
  (fcr * capexVal + fom) / (ncf * 8760) * 1000 + vom + fuelTerm

/-- Modelled from the spec: the raw inputs the generic LCOE stage reads for
one (technology-class row, year) cell: overnight capital cost, construction
finance factor, fixed and variable O&M, net capacity factor, fixed charge
rate, fuel consumption flag and fuel-related $/MWh term. -/
structure CellInputs where
  occ : ℚ
  cffVal : ℚ
  fom : ℚ
  vom : ℚ
  ncf : ℚ
  fcr : ℚ
  consumesFuel : Bool
  fuelTerm : ℚ
deriving DecidableEq

/-- Modelled from the spec: the CAPEX stage evaluated on one cell's raw
inputs. -/
def capexStage (c : CellInputs) : ℚ := capex c.occ c.cffVal

/-- Modelled from the spec: the generic LCOE stage evaluated on one cell's
raw inputs; the fuel-related term enters exactly when the technology
consumes fuel. -/
def lcoeStage (c : CellInputs) : ℚ :=
  lcoe c.fcr (capexStage c) c.fom c.ncf c.vom
    (if c.consumesFuel then c.fuelTerm else 0)

/-- Modelled from the spec: a metric table is a two-dimensional structure
indexed by (technology-class row, year); we embed it as a list of rows, each
carrying its class label and its per-year values. -/
abbrev MetricTable (α : Type) : Type := List (String × List α)

/-- Modelled from the spec: a stage maps each cell of the raw-input table to
the metric it computes, preserving the (row, year) axes. -/
def mapTable {α β : Type} (f : α → β) (t : MetricTable α) : MetricTable β :=
  t.map (fun r => (r.1, r.2.map f))

/-- Modelled from the spec: the LCOE metric table produced from the raw-input
table. -/
def lcoeTable (t : MetricTable CellInputs) : MetricTable ℚ :=
  mapTable lcoeStage t

/-- Modelled from the spec: the CAPEX metric table produced from the
raw-input table. -/
def capexTable (t : MetricTable CellInputs) : MetricTable ℚ :=
  mapTable capexStage t

/-- The concrete scenario of the spec: OCC = 1300 $/kW, CFF = 1.05, fixed
O&M = 40 $/kW-yr, variable O&M = 0 $/MWh, NCF = 0.45, FCR = 0.075, no
fuel. -/
def scenarioCell : CellInputs :=
  { occ := 1300, cffVal := 105/100, fom := 40, vom := 0, ncf := 45/100,
    fcr := 75/1000, consumesFuel := false, fuelTerm := 0 }

/-! ### Depreciation tables (`macrs.py`, absent from the snapshot) -/

/-- Modelled from the spec: the six MACRS property classes supported by the
absent `macrs.py`. -/
inductive MacrsClass
  | y3 | y5 | y7 | y10 | y15 | y20
deriving DecidableEq

/-- Modelled from the spec: the standard half-year-convention MACRS annual
deduction-fraction sequences for 3/5/7/10/15/20-year property (IRS table
percentages, as exact rationals). -/
def macrsSchedule : MacrsClass → List ℚ
  | .y3 => [3333/10000, 4445/10000, 1481/10000, 741/10000]
  | .y5 => [2000/10000, 3200/10000, 1920/10000, 1152/10000, 1152/10000,
            576/10000]
  | .y7 => [1429/10000, 2449/10000, 1749/10000, 1249/10000, 893/10000,
            892/10000, 893/10000, 446/10000]
  | .y10 => [1000/10000, 1800/10000, 1440/10000, 1152/10000, 922/10000,
             737/10000, 655/10000, 655/10000, 656/10000, 655/10000,
             328/10000]
  | .y15 => [500/10000, 950/10000, 855/10000, 770/10000, 693/10000,
             623/10000, 590/10000, 590/10000, 591/10000, 590/10000,
             591/10000, 590/10000, 591/10000, 590/10000, 591/10000,
             295/10000]
  | .y20 => [3750/100000, 7219/100000, 6677/100000, 6177/100000,
             5713/100000, 5285/100000, 4888/100000, 4522/100000,
             4462/100000, 4461/100000, 4462/100000, 4461/100000,
             4462/100000, 4461/100000, 4462/100000, 4461/100000,
             4462/100000, 4461/100000, 4462/100000, 4461/100000,
             2231/100000]

/-- Modelled from the spec: the depreciation lookup is a pure function of
(class, year-index) returning the deduction fraction, and 0 for any
year-index beyond the schedule length. -/
def macrs (c : MacrsClass) (yearIndex : ℕ) : ℚ :=
  (macrsSchedule c).getD yearIndex 0

/-- Modelled from the spec: the present value of the depreciation schedule
at the WACC discount rate, feeding the depreciation tax effect of the
fixed-charge-rate stage. -/
def pvd (sched : List ℚ) (discountRate : ℚ) : ℚ :=
  (sched.enum.map (fun p => p.2 / (1 + discountRate) ^ (p.1 + 1))).sum

/-- Modelled from the spec: capital recovery factor over the capital
recovery period at the WACC rate (the annualization inside the FCR
stage; the spec fixes FCR's arguments but not its closed form). -/
def crf (rate : ℚ) (crp : ℕ) : ℚ :=
  rate * (1 + rate) ^ crp / ((1 + rate) ^ crp - 1)

/-- Modelled from the spec: the combination of tax rate and depreciation
present value used by the FCR stage (project finance factor). -/
def pff (taxRate pvdVal : ℚ) : ℚ := (1 - taxRate * pvdVal) / (1 - taxRate)

/-- Modelled from the spec: the FCR stage — a pure function of CRP, WACC,
tax rate and the depreciation tax benefit. -/
def fcrCalc (rate : ℚ) (crp : ℕ) (taxRate pvdVal : ℚ) : ℚ :=
  crf rate crp * pff taxRate pvdVal

/-! ### Extraction abstraction (`extractor.py` / `abstract_extractor.py`,
absent from the snapshot) -/

/-- Modelled from the spec: a Cell Reference — sheet identifier plus a
cell/range address, immutable, defined at technology-definition time. -/
structure CellRef where
  sheet : String
  cell : String
deriving DecidableEq

/-- Modelled from the spec: what a source holds at an addressed location —
an empty cell, a non-numeric (text) cell, or a numeric value. -/
inductive CellContent
  | empty
  | text (s : String)
  | num (q : ℚ)
deriving DecidableEq

/-- Modelled from the spec: a source of values keyed by Cell Reference —
the recorded flat table of the Replay variant, or the snapshot of the open
workbook behind the Live variant. -/
abbrev Source : Type := List (CellRef × CellContent)

/-- Modelled from the spec: the two extraction variants. -/
inductive ExtractionVariant
  | live
  | replay
deriving DecidableEq

/-- Modelled from the spec: `ExtractionError` — source unreadable, missing,
or non-numeric value at a referenced location. -/
inductive ExtractionError
  | absent (ref : CellRef)
  | emptyCell (ref : CellRef)
  | nonNumeric (ref : CellRef)
deriving DecidableEq

/-- Modelled from the spec: both extraction variants answer `get_scalar` by
looking the Cell Reference up in their backing source; the variant never
changes the read semantics. -/
def get_scalar (variant : ExtractionVariant) (src : Source) (ref : CellRef) :
    Except ExtractionError ℚ :=
  match variant, src.lookup ref with
  | _, none => .error (.absent ref)
  | _, some .empty => .error (.emptyCell ref)
  | _, some (.text _) => .error (.nonNumeric ref)
  | _, some (.num q) => .ok q

/-- Modelled from the spec: `get_series` pulls an ordered sequence of
scalars, failing with the first `ExtractionError` encountered. -/
def get_series (variant : ExtractionVariant) (src : Source) :
    List CellRef → Except ExtractionError (List ℚ)
  | [] => .ok []
  | ref :: rest =>
    match get_scalar variant src ref with
    | .error e => .error e
    | .ok q =>
      match get_series variant src rest with
      | .error e => .error e
      | .ok qs => .ok (q :: qs)

/-! ### Base technology processor (`base_processor.py`, absent from the
snapshot) -/

/-- Modelled from the spec: the Cell References for the four financial raw
inputs consumed by the WACC stage. -/
structure FinRefs where
  debt_fraction : CellRef
  cost_of_debt : CellRef
  cost_of_equity : CellRef
  tax_rate : CellRef
deriving DecidableEq

/-- Modelled from the spec: the per-(row, year) raw-input Cell References a
concrete technology variant supplies: OCC, fixed/variable O&M, capacity
factor (NCF) and the fuel-related $/MWh term where applicable. -/
structure CellRefBundle where
  occ : CellRef
  fom : CellRef
  vom : CellRef
  ncf : CellRef
  fuelTerm : CellRef
deriving DecidableEq

/-- Modelled from the spec: the raw values extracted for one (row, year)
cell before the formula pipeline runs. -/
structure RawCell where
  occ : ℚ
  fom : ℚ
  vom : ℚ
  ncf : ℚ
  fuelTerm : ℚ
deriving DecidableEq

/-- Modelled from the spec: a technology definition — the coordinates and
per-technology constants a concrete variant supplies to the base
processor: technology name, financial-input references, construction
schedule references, CRP, MACRS class, per-row raw-input references, the
fuel flag, and the optional reference CAPEX/LCOE coordinates used by
`test_capex` / `test_lcoe`. -/
structure TechDef where
  name : String
  finRefs : FinRefs
  schedRefs : List CellRef
  crp : ℕ
  macrsClass : MacrsClass
  rowRefs : List (String × List CellRefBundle)
  consumesFuel : Bool
  refCapex : Option (MetricTable CellRef)
  refLcoe : Option (MetricTable CellRef)

/-- Modelled from the spec: extraction of the four financial assumptions. -/
def extractFin (v : ExtractionVariant) (src : Source) (fr : FinRefs) :
    Except ExtractionError FinAssumptions :=
  match get_scalar v src fr.debt_fraction with
  | .error e => .error e
  | .ok d =>
    match get_scalar v src fr.cost_of_debt with
    | .error e => .error e
    | .ok cd =>
      match get_scalar v src fr.cost_of_equity with
      | .error e => .error e
      | .ok ce =>
        match get_scalar v src fr.tax_rate with
        | .error e => .error e
        | .ok tax => .ok ⟨d, cd, ce, tax⟩

/-- Modelled from the spec: extraction of one (row, year) raw-input cell. -/
def extractCell (v : ExtractionVariant) (src : Source) (b : CellRefBundle) :
    Except ExtractionError RawCell :=
  match get_scalar v src b.occ with
  | .error e => .error e
  | .ok occ =>
    match get_scalar v src b.fom with
    | .error e => .error e
    | .ok fom =>
      match get_scalar v src b.vom with
      | .error e => .error e
      | .ok vom =>
        match get_scalar v src b.ncf with
        | .error e => .error e
        | .ok ncf =>
          match get_scalar v src b.fuelTerm with
          | .error e => .error e
          | .ok fuel => .ok ⟨occ, fom, vom, ncf, fuel⟩

/-- Modelled from the spec: extraction of the year sequence of one
technology-class row. -/
def extractRow (v : ExtractionVariant) (src : Source) :
    List CellRefBundle → Except ExtractionError (List RawCell)
  | [] => .ok []
  | b :: bs =>
    match extractCell v src b with
    | .error e => .error e
    | .ok c =>
      match extractRow v src bs with
      | .error e => .error e
      | .ok cs => .ok (c :: cs)

/-- Modelled from the spec: extraction of the whole raw-input table, row by
row. -/
def extractRows (v : ExtractionVariant) (src : Source) :
    List (String × List CellRefBundle) →
    Except ExtractionError (MetricTable RawCell)
  | [] => .ok []
  | r :: rs =>
    match extractRow v src r.2 with
    | .error e => .error e
    | .ok cs =>
      match extractRows v src rs with
      | .error e => .error e
      | .ok rest => .ok ((r.1, cs) :: rest)

/-- Modelled from the spec: extraction of a reference metric table (values
the source itself computed), used by `test_capex` / `test_lcoe`. -/
def extractRefTable (v : ExtractionVariant) (src : Source) :
    MetricTable CellRef → Except ExtractionError (MetricTable ℚ)
  | [] => .ok []
  | r :: rs =>
    match get_series v src r.2 with
    | .error e => .error e
    | .ok qs =>
      match extractRefTable v src rs with
      | .error e => .error e
      | .ok rest => .ok ((r.1, qs) :: rest)

/-- Modelled from the spec: the metric tables a processor run populates. -/
structure Results where
  waccVal : ℚ
  cffVal : ℚ
  fcrVal : ℚ
  cells : MetricTable CellInputs
  capexOut : MetricTable ℚ
  lcoeOut : MetricTable ℚ
deriving DecidableEq

/-- Modelled from the spec: the formula pipeline — WACC, then CFF over the
construction schedule at the WACC rate, then the depreciation tax effect
for the technology's MACRS class, then FCR, then CAPEX, then LCOE, each
downstream stage reading the upstream results. -/
def computeTables (t : TechDef) (fin : FinAssumptions) (sched : List ℚ)
    (raw : MetricTable RawCell) : Results :=
  let w := waccStage fin
  let cffV := cff sched w
  let dpv := pvd (macrsSchedule t.macrsClass) w
  let fcrV := fcrCalc w t.crp fin.tax_rate dpv
  let cellTbl : MetricTable CellInputs :=
    mapTable (fun rc =>
      { occ := rc.occ, cffVal := cffV, fom := rc.fom, vom := rc.vom,
        ncf := rc.ncf, fcr := fcrV, consumesFuel := t.consumesFuel,
        fuelTerm := rc.fuelTerm }) raw
  { waccVal := w, cffVal := cffV, fcrVal := fcrV, cells := cellTbl,
    capexOut := capexTable cellTbl, lcoeOut := lcoeTable cellTbl }

/-- Modelled from the spec: `run()` — extraction of all declared raw inputs
followed by the full formula pipeline; an `ExtractionError` aborts the run
and no metric tables are produced. -/
def runProc (v : ExtractionVariant) (src : Source) (t : TechDef) :
    Except ExtractionError Results :=
  match extractFin v src t.finRefs with
  | .error e => .error e
  | .ok fin =>
    match get_series v src t.schedRefs with
    | .error e => .error e
    | .ok sched =>
      match extractRows v src t.rowRefs with
      | .error e => .error e
      | .ok raw => .ok (computeTables t fin sched raw)

/-- Modelled from the spec: every scalar Cell Reference a technology's
`run()` extracts. -/
def declaredRefs (t : TechDef) : List CellRef :=
  [t.finRefs.debt_fraction, t.finRefs.cost_of_debt,
   t.finRefs.cost_of_equity, t.finRefs.tax_rate]
    ++ t.schedRefs
    ++ (t.rowRefs.map (fun r => r.2.map (fun b =>
          [b.occ, b.fom, b.vom, b.ncf, b.fuelTerm]))).flatten.flatten

/-- Modelled from the spec: a Technology Processor instance — source
handle, technology definition, and the private metric tables, `none`
before any successful run. -/
structure ProcessorState where
  variant : ExtractionVariant
  source : Source
  tech : TechDef
  tables : Option Results

/-- Modelled from the spec: `run()` as a state transition — each call
recomputes the metric tables from a fresh extraction, ignoring whatever
tables a previous call left behind. -/
def ProcessorState.run (s : ProcessorState) : ProcessorState :=
  { s with tables := (runProc s.variant s.source s.tech).toOption }

/-! ### Self-validation against reference values -/

/-- Modelled from the spec: the deviation test — a computed value deviates
from its reference beyond the relative tolerance (workbook reference
values may be rounded, so tolerance-based equality is the criterion). -/
def exceedsTol (tol computed reference : ℚ) : Bool :=
  |computed - reference| > tol * |reference|

/-- Modelled from the spec: the (row, year-index) pairs of one
technology-class row whose computed values deviate from the reference
beyond tolerance. -/
def rowMismatches (label : String) (tol : ℚ) (cs rs : List ℚ) :
    List (String × ℕ) :=
  ((cs.zip rs).enum.filter (fun p => exceedsTol tol p.2.1 p.2.2)).map
    (fun p => (label, p.1))

/-- Modelled from the spec: all (technology-class row, year-index) pairs of
the computed metric table deviating from the reference table beyond
tolerance. -/
def tableMismatches (tol : ℚ) (computed reference : MetricTable ℚ) :
    List (String × ℕ) :=
  ((computed.zip reference).map
    (fun p => rowMismatches p.1.1 tol p.1.2 p.2.2)).flatten

/-- Modelled from the spec: `ValidationError` — carries the full
enumeration of mismatching (row, year) pairs for analyst triage. -/
inductive ValidationError
  | deviations (pairs : List (String × ℕ))
deriving DecidableEq

/-- Modelled from the spec: element-wise comparison of a computed metric
table against an optional reference table within a relative tolerance;
raises `ValidationError` enumerating every deviating pair, and is a no-op
when the variant exposes no reference table. -/
def testMetric (tol : ℚ) (computed : MetricTable ℚ)
    (reference : Option (MetricTable ℚ)) : Except ValidationError Unit :=
  match reference with
  | none => .ok ()
  | some ref =>
    match tableMismatches tol computed ref with
    | [] => .ok ()
    | ms => .error (.deviations ms)

/-- Modelled from the spec: `test_capex()` — re-extract the reference CAPEX
values from the source and compare them against the computed CAPEX table;
a no-op for variants that expose no reference CAPEX. -/
def test_capex (v : ExtractionVariant) (src : Source) (tol : ℚ)
    (t : TechDef) (res : Results) :
    Except ExtractionError (Except ValidationError Unit) :=
  match t.refCapex with
  | none => .ok (.ok ())
  | some refs =>
    match extractRefTable v src refs with
    | .error e => .error e
    | .ok ref => .ok (testMetric tol res.capexOut (some ref))

/-- Modelled from the spec: `test_lcoe()` — re-extract the reference LCOE
values from the source and compare them against the computed LCOE table;
a no-op for variants that expose no reference LCOE. -/
def test_lcoe (v : ExtractionVariant) (src : Source) (tol : ℚ)
    (t : TechDef) (res : Results) :
    Except ExtractionError (Except ValidationError Unit) :=
  match t.refLcoe with
  | none => .ok (.ok ())
  | some refs =>
    match extractRefTable v src refs with
    | .error e => .error e
    | .ok ref => .ok (testMetric tol res.lcoeOut (some ref))

/-! ### Aggregator (`process_all.py`, absent from the snapshot) -/

/-- Modelled from the spec: one technology's contribution to the combined
structure — its rows keyed additionally by technology identity, CRP and
financial case. -/
structure CombinedKey where
  techName : String
  crp : ℕ
  finCase : String
  rowLabel : String
deriving DecidableEq

/-- Modelled from the spec: tag every row of one processor's metric table
with that processor's identity. -/
def tagRows (techName : String) (crp : ℕ) (finCase : String)
    (tbl : MetricTable ℚ) : List (CombinedKey × List ℚ) :=
  tbl.map (fun r => (⟨techName, crp, finCase, r.1⟩, r.2))

/-- Modelled from the spec: union of the constituent processors' metric
tables into one combined structure. -/
def aggregate (tables : List (List (CombinedKey × List ℚ))) :
    List (CombinedKey × List ℚ) :=
  tables.flatten

/-- Modelled from the spec: the outcome the Aggregator records for one
technology — the run result, and, exactly when the run succeeded, the
automatic CAPEX and LCOE reference comparisons. -/
structure TechOutcome where
  techName : String
  runResult : Except ExtractionError Results
  capexCheck : Option (Except ExtractionError (Except ValidationError Unit))
  lcoeCheck : Option (Except ExtractionError (Except ValidationError Unit))

/-- Modelled from the spec: processing one technology inside the
Aggregator — invoke `run()`, then automatically compare the calculated
CAPEX and LCOE to the values in the workbook. -/
def processOne (v : ExtractionVariant) (src : Source) (tol : ℚ)
    (t : TechDef) : TechOutcome :=
  match runProc v src t with
  | .error e => ⟨t.name, .error e, none, none⟩
  | .ok res =>
    ⟨t.name, .ok res, some (test_capex v src tol t res),
      some (test_lcoe v src tol t res)⟩

/-- Modelled from the spec: the Aggregator's `process()` entry point — run
every supplied Technology Processor, validating each against the workbook
as part of processing. -/
def processAll (v : ExtractionVariant) (src : Source) (tol : ℚ)
    (ts : List TechDef) : List TechOutcome :=
  ts.map (processOne v src tol)

/-! ## Theorems -/

/-- C1 (counterexample): at the spec's own concrete scenario — OCC = 1300,
CFF = 1.05, fixed O&M = 40, variable O&M = 0, NCF = 0.45, FCR = 0.075 — the
LCOE the pipeline's formula yields is 142375/3942 ≈ 36.12 $/MWh, which is
NOT within ±1% of the claimed 36.8 $/MWh. -/
theorem lcoe_scenario_not_36_8 :
    ¬ |lcoeStage scenarioCell - 368/10| ≤ (1/100) * (368/10) := by
  norm_num [lcoeStage, lcoe, capexStage, capex, scenarioCell, abs]

/-- C1 (amended): for every technology-class row and year the generic LCOE
stage computes `(FCR × CAPEX + fixed O&M) / (NCF × 8760) × 1000 + variable
O&M`, plus the fuel-related term exactly when the technology consumes fuel;
at the spec's concrete scenario the result is within ±1% of 36.1 $/MWh
(exact value 142375/3942 ≈ 36.12). -/
theorem lcoe_formula_and_scenario :
    (∀ c : CellInputs, lcoeStage c =
      (c.fcr * (c.occ * c.cffVal) + c.fom) / (c.ncf * 8760) * 1000 + c.vom
        + (if c.consumesFuel then c.fuelTerm else 0)) ∧
    (∀ tbl : MetricTable CellInputs,
      lcoeTable tbl = tbl.map (fun r => (r.1, r.2.map lcoeStage))) ∧
    (∀ (t : TechDef) (fin : FinAssumptions) (sched : List ℚ)
        (raw : MetricTable RawCell),
      (computeTables t fin sched raw).lcoeOut =
        lcoeTable (computeTables t fin sched raw).cells) ∧
    |lcoeStage scenarioCell - 361/10| ≤ (1/100) * (361/10) := by
  refine ⟨fun c => rfl, fun tbl => rfl, fun t fin sched raw => rfl, ?_⟩
  norm_num [lcoeStage, lcoe, capexStage, capex, scenarioCell, abs]

/-- C3: the CAPEX stage multiplies the extracted overnight capital cost by
the construction finance factor, for every (row, year) cell of the table
and inside the full pipeline; at the spec's example, OCC = 1300 and
CFF = 1.05 give CAPEX = 1365. -/
theorem capex_occ_times_cff :
    (∀ tbl : MetricTable CellInputs, capexTable tbl =
      tbl.map (fun r => (r.1, r.2.map (fun c => c.occ * c.cffVal)))) ∧
    (∀ (t : TechDef) (fin : FinAssumptions) (sched : List ℚ)
        (raw : MetricTable RawCell),
      (computeTables t fin sched raw).capexOut =
        capexTable (computeTables t fin sched raw).cells) ∧
    capexStage scenarioCell = 1365 ∧ capex 1300 (105/100) = 1365 := by
  refine ⟨fun tbl => rfl, fun t fin sched raw => rfl, ?_, ?_⟩ <;>
    norm_num [capexStage, capex, scenarioCell]

/-- C4: the depreciation lookup is a pure function of (MACRS class,
year-index); for every class the schedule fractions sum exactly to 1, and
the lookup returns 0 for any year-index at or beyond the schedule
length. -/
theorem macrs_sum_one_and_zero_beyond :
    (∀ c : MacrsClass, (macrsSchedule c).sum = 1) ∧
    (∀ (c : MacrsClass) (i : ℕ), (macrsSchedule c).length ≤ i →
      macrs c i = 0) := by
  constructor
  · intro c
    cases c <;> norm_num [macrsSchedule]
  · intro c i h
    exact List.getD_eq_default _ _ h

/-- C4 (witness): the 5-year class sums to 1 and yields 0 at year-index 10,
past its 6-entry schedule. -/
theorem macrs_sum_one_and_zero_beyond_witness :
    (macrsSchedule MacrsClass.y5).sum = 1 ∧ macrs MacrsClass.y5 10 = 0 :=
  ⟨macrs_sum_one_and_zero_beyond.1 MacrsClass.y5,
   macrs_sum_one_and_zero_beyond.2 MacrsClass.y5 10 (by norm_num [macrsSchedule])⟩

/-- C6: with cost_of_debt × (1 − tax_rate) < cost_of_equity, WACC is
strictly decreasing in the debt fraction, the other inputs held fixed. -/
theorem wacc_strict_anti_in_debt_fraction
    (cost_of_debt cost_of_equity tax_rate d1 d2 : ℚ)
    (hlev : cost_of_debt * (1 - tax_rate) < cost_of_equity)
    (hd : d1 < d2) :
    wacc d2 cost_of_debt cost_of_equity tax_rate <
      wacc d1 cost_of_debt cost_of_equity tax_rate := by
  have key : (d2 - d1) * (cost_of_debt * (1 - tax_rate) - cost_of_equity) < 0 :=
    mul_neg_of_pos_of_neg (by linarith) (by linarith)
  unfold wacc
  nlinarith [key]

/-- C6 (witness): at cost_of_debt = 0.05, cost_of_equity = 0.1,
tax_rate = 0.25, raising the debt fraction from 0.3 to 0.5 strictly lowers
WACC. -/
theorem wacc_strict_anti_in_debt_fraction_witness :
    wacc (5/10) (5/100) (1/10) (25/100) < wacc (3/10) (5/100) (1/10) (25/100) :=
  wacc_strict_anti_in_debt_fraction (5/100) (1/10) (25/100) (3/10) (5/10)
    (by norm_num) (by norm_num)

/-- C9: the Aggregator's combined table has exactly as many rows as the
constituent processors' tables together — the union drops and duplicates
nothing, and tagging rows with technology identity, CRP and financial case
preserves each table's row count. -/
theorem aggregate_row_count :
    (∀ tables : List (List (CombinedKey × List ℚ)),
      (aggregate tables).length = (tables.map List.length).sum) ∧
    (∀ (techName : String) (crp : ℕ) (finCase : String)
        (tbl : MetricTable ℚ),
      (tagRows techName crp finCase tbl).length = tbl.length) := by
  constructor
  · intro tables
    simp [aggregate, List.length_flatten]
  · intro techName crp finCase tbl
    simp [tagRows]

/-- A demonstration Cell Reference on a single demo sheet. -/
def demoRef (c : String) : CellRef := ⟨"Demo", c⟩

/-- A demonstration raw-input bundle for one (row, year) cell. -/
def demoBundle : CellRefBundle :=
  ⟨demoRef "C1", demoRef "C2", demoRef "C3", demoRef "C4", demoRef "C5"⟩

/-- A demonstration technology bound to one class row and one year. -/
def demoTech : TechDef :=
  { name := "LandBasedWind",
    finRefs := ⟨demoRef "B1", demoRef "B2", demoRef "B3", demoRef "B4"⟩,
    schedRefs := [demoRef "B5"], crp := 1, macrsClass := .y5,
    rowRefs := [("Class 1", [demoBundle])], consumesFuel := false,
    refCapex := none, refLcoe := none }

/-- A demonstration recorded source holding every cell `demoTech`
declares. -/
def demoSource : Source :=
  [(demoRef "B1", .num (4/10)), (demoRef "B2", .num (5/100)),
   (demoRef "B3", .num (1/10)), (demoRef "B4", .num (257/1000)),
   (demoRef "B5", .num 1),
   (demoRef "C1", .num 1300), (demoRef "C2", .num 40),
   (demoRef "C3", .num 0), (demoRef "C4", .num (45/100)),
   (demoRef "C5", .num 0)]

/-- The financial assumptions `demoSource` holds. -/
def demoFin : FinAssumptions := ⟨4/10, 5/100, 1/10, 257/1000⟩

/-- The raw-input table `demoSource` holds. -/
def demoRaw : MetricTable RawCell := [("Class 1", [⟨1300, 40, 0, 45/100, 0⟩])]

/-- C2: the WACC stage computes exactly `debt_fraction × cost_of_debt ×
(1 − tax_rate) + (1 − debt_fraction) × cost_of_equity` from the extracted
financial assumptions, both as a stage function and for every successful
processor run. -/
theorem wacc_formula :
    (∀ fin : FinAssumptions, waccStage fin =
      fin.debt_fraction * fin.cost_of_debt * (1 - fin.tax_rate)
        + (1 - fin.debt_fraction) * fin.cost_of_equity) ∧
    (∀ (v : ExtractionVariant) (src : Source) (t : TechDef) (res : Results),
      runProc v src t = .ok res →
      ∃ fin : FinAssumptions, extractFin v src t.finRefs = .ok fin ∧
        res.waccVal =
          fin.debt_fraction * fin.cost_of_debt * (1 - fin.tax_rate)
            + (1 - fin.debt_fraction) * fin.cost_of_equity) := by
  refine ⟨fun fin => rfl, ?_⟩
  intro v src t res h
  rw [runProc] at h
  cases hf : extractFin v src t.finRefs with
  | error e => rw [hf] at h; simp [Except.bind] at h
  | ok fin =>
    rw [hf] at h
    cases hs : get_series v src t.schedRefs with
    | error e => rw [hs] at h; simp [Except.bind] at h
    | ok sched =>
      rw [hs] at h
      cases hr : extractRows v src t.rowRefs with
      | error e => rw [hr] at h; simp [Except.bind] at h
      | ok raw =>
        rw [hr] at h
        simp only [Except.bind, pure, Except.pure, Except.ok.injEq] at h
        exact ⟨fin, rfl, by rw [← h]; rfl⟩

/-- C2 (witness): running the demonstration technology on the demonstration
source succeeds and its WACC table entry is the formula value of the
extracted assumptions. -/
theorem wacc_formula_witness :
    ∃ res : Results, runProc .replay demoSource demoTech = .ok res ∧
      ∃ fin : FinAssumptions,
        extractFin .replay demoSource demoTech.finRefs = .ok fin ∧
        res.waccVal =
          fin.debt_fraction * fin.cost_of_debt * (1 - fin.tax_rate)
            + (1 - fin.debt_fraction) * fin.cost_of_equity := by
  have h : runProc .replay demoSource demoTech =
      .ok (computeTables demoTech demoFin [1] demoRaw) := rfl
  exact ⟨_, h, wacc_formula.2 .replay demoSource demoTech _ h⟩

/-- C5: the formula pipeline is deterministic — two processor states
agreeing on variant, source and technology produce identical metric tables
when run, whatever private tables either held before, and `run()` is
idempotent, each call recomputing from a fresh extraction. -/
theorem pipeline_deterministic :
    (∀ s1 s2 : ProcessorState, s1.variant = s2.variant →
      s1.source = s2.source → s1.tech = s2.tech →
      s1.run.tables = s2.run.tables) ∧
    (∀ s : ProcessorState, s.run.run = s.run) := by
  constructor
  · intro s1 s2 hv hs ht
    simp [ProcessorState.run, hv, hs, ht]
  · intro s
    rfl

/-- C5 (witness): a fresh processor and one carrying stale tables from an
earlier computation produce bit-for-bit identical tables on the same
inputs, and rerunning is a no-op. -/
theorem pipeline_deterministic_witness :
    (ProcessorState.run ⟨.replay, demoSource, demoTech, none⟩).tables =
      (ProcessorState.run ⟨.replay, demoSource, demoTech,
        some (computeTables demoTech demoFin [] [])⟩).tables ∧
    (ProcessorState.run (ProcessorState.run
        ⟨.replay, demoSource, demoTech, none⟩)) =
      ProcessorState.run ⟨.replay, demoSource, demoTech, none⟩ :=
  ⟨pipeline_deterministic.1 _ _ rfl rfl rfl, pipeline_deterministic.2 _⟩

/-- Helper: a successful `get_series` means every referenced cell read
successfully. -/
lemma get_series_ok_mem (v : ExtractionVariant) (src : Source) :
    ∀ {refs : List CellRef} {qs : List ℚ},
      get_series v src refs = .ok qs →
      ∀ ref ∈ refs, ∃ q, get_scalar v src ref = .ok q := by
  intro refs
  induction refs with
  | nil => intro qs h ref hr; cases hr
  | cons a as ih =>
    intro qs h ref hr
    rw [get_series] at h
    cases ha : get_scalar v src a with
    | error e => rw [ha] at h; simp at h
    | ok q =>
      rw [ha] at h
      cases hs : get_series v src as with
      | error e => rw [hs] at h; simp at h
      | ok qs2 =>
        cases hr with
        | head => exact ⟨q, ha⟩
        | tail _ hm => exact ih hs ref hm

/-- Helper: a successful `extractFin` means all four financial references
read successfully. -/
lemma extractFin_ok (v : ExtractionVariant) (src : Source) {fr : FinRefs}
    {fin : FinAssumptions} (h : extractFin v src fr = .ok fin) :
    (∃ q, get_scalar v src fr.debt_fraction = .ok q) ∧
    (∃ q, get_scalar v src fr.cost_of_debt = .ok q) ∧
    (∃ q, get_scalar v src fr.cost_of_equity = .ok q) ∧
    (∃ q, get_scalar v src fr.tax_rate = .ok q) := by
  rw [extractFin] at h
  cases h1 : get_scalar v src fr.debt_fraction with
  | error e => rw [h1] at h; simp at h
  | ok d =>
    rw [h1] at h
    cases h2 : get_scalar v src fr.cost_of_debt with
    | error e => rw [h2] at h; simp at h
    | ok cd =>
      rw [h2] at h
      cases h3 : get_scalar v src fr.cost_of_equity with
      | error e => rw [h3] at h; simp at h
      | ok ce =>
        rw [h3] at h
        cases h4 : get_scalar v src fr.tax_rate with
        | error e => rw [h4] at h; simp at h
        | ok tax => exact ⟨⟨d, rfl⟩, ⟨cd, rfl⟩, ⟨ce, rfl⟩, ⟨tax, rfl⟩⟩

/-- Helper: a successful `extractCell` means all five bundle references
read successfully. -/
lemma extractCell_ok (v : ExtractionVariant) (src : Source)
    {b : CellRefBundle} {c : RawCell} (h : extractCell v src b = .ok c) :
    (∃ q, get_scalar v src b.occ = .ok q) ∧
    (∃ q, get_scalar v src b.fom = .ok q) ∧
    (∃ q, get_scalar v src b.vom = .ok q) ∧
    (∃ q, get_scalar v src b.ncf = .ok q) ∧
    (∃ q, get_scalar v src b.fuelTerm = .ok q) := by
  rw [extractCell] at h
  cases h1 : get_scalar v src b.occ with
  | error e => rw [h1] at h; simp at h
  | ok q1 =>
    rw [h1] at h
    cases h2 : get_scalar v src b.fom with
    | error e => rw [h2] at h; simp at h
    | ok q2 =>
      rw [h2] at h
      cases h3 : get_scalar v src b.vom with
      | error e => rw [h3] at h; simp at h
      | ok q3 =>
        rw [h3] at h
        cases h4 : get_scalar v src b.ncf with
        | error e => rw [h4] at h; simp at h
        | ok q4 =>
          rw [h4] at h
          cases h5 : get_scalar v src b.fuelTerm with
          | error e => rw [h5] at h; simp at h
          | ok q5 => exact ⟨⟨q1, rfl⟩, ⟨q2, rfl⟩, ⟨q3, rfl⟩, ⟨q4, rfl⟩, ⟨q5, rfl⟩⟩

/-- Helper: a successful `extractRow` means every bundle of the row
extracted successfully. -/
lemma extractRow_ok (v : ExtractionVariant) (src : Source) :
    ∀ {bs : List CellRefBundle} {cs : List RawCell},
      extractRow v src bs = .ok cs →
      ∀ b ∈ bs, ∃ c, extractCell v src b = .ok c := by
  intro bs
  induction bs with
  | nil => intro cs h b hb; cases hb
  | cons a as ih =>
    intro cs h b hb
    rw [extractRow] at h
    cases ha : extractCell v src a with
    | error e => rw [ha] at h; simp at h
    | ok c =>
      rw [ha] at h
      cases hs : extractRow v src as with
      | error e => rw [hs] at h; simp at h
      | ok cs2 =>
        cases hb with
        | head => exact ⟨c, ha⟩
        | tail _ hm => exact ih hs b hm

/-- Helper: a successful `extractRows` means every bundle of every row
extracted successfully. -/
lemma extractRows_ok (v : ExtractionVariant) (src : Source) :
    ∀ {rows : List (String × List CellRefBundle)} {tbl : MetricTable RawCell},
      extractRows v src rows = .ok tbl →
      ∀ r ∈ rows, ∀ b ∈ r.2, ∃ c, extractCell v src b = .ok c := by
  intro rows
  induction rows with
  | nil => intro tbl h r hr; cases hr
  | cons a as ih =>
    intro tbl h r hr
    rw [extractRows] at h
    cases ha : extractRow v src a.2 with
    | error e => rw [ha] at h; simp at h
    | ok cs =>
      rw [ha] at h
      cases hs : extractRows v src as with
      | error e => rw [hs] at h; simp at h
      | ok rest =>
        cases hr with
        | head => exact fun b hb => extractRow_ok v src ha b hb
        | tail _ hm => exact ih hs r hm

/-- Helper: a successful `runProc` means the financial, schedule and row
extractions all succeeded. -/
lemma runProc_ok (v : ExtractionVariant) (src : Source) {t : TechDef}
    {res : Results} (h : runProc v src t = .ok res) :
    (∃ fin, extractFin v src t.finRefs = .ok fin) ∧
    (∃ sched, get_series v src t.schedRefs = .ok sched) ∧
    (∃ raw, extractRows v src t.rowRefs = .ok raw) := by
  rw [runProc] at h
  cases h1 : extractFin v src t.finRefs with
  | error e => rw [h1] at h; simp at h
  | ok fin =>
    rw [h1] at h
    cases h2 : get_series v src t.schedRefs with
    | error e => rw [h2] at h; simp at h
    | ok sched =>
      rw [h2] at h
      cases h3 : extractRows v src t.rowRefs with
      | error e => rw [h3] at h; simp at h
      | ok raw => exact ⟨⟨fin, rfl⟩, ⟨sched, rfl⟩, ⟨raw, rfl⟩⟩

/-- Helper: a successful `runProc` reads every declared Cell Reference
successfully. -/
lemma runProc_ok_declared (v : ExtractionVariant) (src : Source)
    {t : TechDef} {res : Results} (h : runProc v src t = .ok res) :
    ∀ ref ∈ declaredRefs t, ∃ q, get_scalar v src ref = .ok q := by
  obtain ⟨⟨fin, hfin⟩, ⟨sched, hsched⟩, ⟨raw, hraw⟩⟩ := runProc_ok v src h
  intro ref hmem
  rw [declaredRefs] at hmem
  rcases List.mem_append.1 hmem with hleft | hflat
  · rcases List.mem_append.1 hleft with hfin4 | hsch
    · obtain ⟨hq1, hq2, hq3, hq4⟩ := extractFin_ok v src hfin
      simp only [List.mem_cons, List.not_mem_nil, or_false] at hfin4
      rcases hfin4 with rfl | rfl | rfl | rfl
      · exact hq1
      · exact hq2
      · exact hq3
      · exact hq4
    · exact get_series_ok_mem v src hsched ref hsch
  · obtain ⟨bl, hbl, hrefbl⟩ := List.mem_flatten.1 hflat
    obtain ⟨rowbl, hrowbl, hbl2⟩ := List.mem_flatten.1 hbl
    obtain ⟨row, hrow, hrow2⟩ := List.mem_map.1 hrowbl
    subst hrow2
    obtain ⟨b, hb, hb2⟩ := List.mem_map.1 hbl2
    subst hb2
    obtain ⟨c, hc⟩ := extractRows_ok v src hraw row hrow b hb
    obtain ⟨ho, hf, hvv, hn, hfl⟩ := extractCell_ok v src hc
    simp only [List.mem_cons, List.not_mem_nil, or_false] at hrefbl
    rcases hrefbl with rfl | rfl | rfl | rfl | rfl
    · exact ho
    · exact hf
    · exact hvv
    · exact hn
    · exact hfl

/-- C7: for either extraction variant, `get_scalar` fails with an
`ExtractionError` exactly when the referenced cell is absent, empty or
non-numeric; such an error propagates to any `get_series` containing the
reference and aborts the owning processor's `run()`, whose erroring result
carries no metric tables. -/
theorem extraction_error_aborts_run :
    (∀ (v : ExtractionVariant) (src : Source) (ref : CellRef),
      (∃ e, get_scalar v src ref = .error e) ↔
        (src.lookup ref = none ∨ src.lookup ref = some .empty ∨
          ∃ s, src.lookup ref = some (.text s))) ∧
    (∀ (v : ExtractionVariant) (src : Source) (refs : List CellRef)
        (ref : CellRef), ref ∈ refs →
      (∃ e, get_scalar v src ref = .error e) →
      ∃ e, get_series v src refs = .error e) ∧
    (∀ (v : ExtractionVariant) (src : Source) (t : TechDef) (ref : CellRef),
      ref ∈ declaredRefs t →
      (∃ e, get_scalar v src ref = .error e) →
      ∃ e, runProc v src t = .error e) ∧
    (∀ (v : ExtractionVariant) (src : Source) (t : TechDef)
        (e : ExtractionError), runProc v src t = .error e →
      ¬ ∃ res, runProc v src t = .ok res) := by
  refine ⟨?_, ?_, ?_, ?_⟩
  · intro v src ref
    cases hl : src.lookup ref with
    | none => simp [get_scalar, hl]
    | some c => cases c <;> simp [get_scalar, hl]
  · intro v src refs ref hmem herr
    cases hs : get_series v src refs with
    | error e => exact ⟨e, rfl⟩
    | ok qs =>
      obtain ⟨q, hq⟩ := get_series_ok_mem v src hs ref hmem
      obtain ⟨e, he⟩ := herr
      rw [hq] at he
      simp at he
  · intro v src t ref hmem herr
    cases hr : runProc v src t with
    | error e => exact ⟨e, rfl⟩
    | ok res =>
      obtain ⟨q, hq⟩ := runProc_ok_declared v src hr ref hmem
      obtain ⟨e, he⟩ := herr
      rw [hq] at he
      simp at he
  · intro v src t e h
    rintro ⟨res, hres⟩
    rw [h] at hres
    simp at hres

/-- C7 (witness): on an empty recorded source the demonstration
technology's debt-fraction cell is absent, so its `run()` aborts with an
`ExtractionError`. -/
theorem extraction_error_aborts_run_witness :
    ∃ e, runProc .replay [] demoTech = .error e :=
  extraction_error_aborts_run.2.2.1 .replay [] demoTech (demoRef "B1")
    (by simp [declaredRefs, demoTech])
    ⟨.absent (demoRef "B1"), rfl⟩

/-- C8: `test_capex` / `test_lcoe` compare the computed tables element-wise
against re-extracted reference values within a relative tolerance and are
no-ops for variants exposing no reference table; `testMetric` succeeds
exactly when no (row, year) deviation exceeds tolerance, its
`ValidationError` carries exactly the mismatch enumeration, and a pair is
enumerated exactly when its deviation exceeds the tolerance. -/
theorem test_capex_lcoe_validation :
    (∀ (v : ExtractionVariant) (src : Source) (tol : ℚ) (t : TechDef)
        (res : Results), t.refCapex = none →
      test_capex v src tol t res = .ok (.ok ())) ∧
    (∀ (v : ExtractionVariant) (src : Source) (tol : ℚ) (t : TechDef)
        (res : Results), t.refLcoe = none →
      test_lcoe v src tol t res = .ok (.ok ())) ∧
    (∀ (v : ExtractionVariant) (src : Source) (tol : ℚ) (t : TechDef)
        (res : Results) (refs : MetricTable CellRef) (ref : MetricTable ℚ),
      t.refCapex = some refs → extractRefTable v src refs = .ok ref →
      test_capex v src tol t res =
        .ok (testMetric tol res.capexOut (some ref))) ∧
    (∀ (v : ExtractionVariant) (src : Source) (tol : ℚ) (t : TechDef)
        (res : Results) (refs : MetricTable CellRef) (ref : MetricTable ℚ),
      t.refLcoe = some refs → extractRefTable v src refs = .ok ref →
      test_lcoe v src tol t res =
        .ok (testMetric tol res.lcoeOut (some ref))) ∧
    (∀ (tol : ℚ) (computed reference : MetricTable ℚ),
      testMetric tol computed (some reference) = .ok () ↔
        tableMismatches tol computed reference = []) ∧
    (∀ (tol : ℚ) (computed reference : MetricTable ℚ)
        (ms : List (String × ℕ)),
      testMetric tol computed (some reference) = .error (.deviations ms) ↔
        (ms = tableMismatches tol computed reference ∧ ms ≠ [])) ∧
    (∀ (label lbl : String) (tol : ℚ) (cs rs : List ℚ) (j : ℕ),
      (lbl, j) ∈ rowMismatches label tol cs rs ↔
        (lbl = label ∧ ∃ cv rv, (cs.zip rs)[j]? = some (cv, rv) ∧
          exceedsTol tol cv rv = true)) := by
  refine ⟨?_, ?_, ?_, ?_, ?_, ?_, ?_⟩
  · intro v src tol t res h
    simp [test_capex, h]
  · intro v src tol t res h
    simp [test_lcoe, h]
  · intro v src tol t res refs ref h1 h2
    simp [test_capex, h1, h2]
  · intro v src tol t res refs ref h1 h2
    simp [test_lcoe, h1, h2]
  · intro tol c r
    cases h : tableMismatches tol c r with
    | nil => simp [testMetric, h]
    | cons a l => simp [testMetric, h]
  · intro tol c r ms
    cases h : tableMismatches tol c r with
    | nil =>
      constructor
      · intro hh
        simp [testMetric, h] at hh
      · rintro ⟨rfl, hne⟩
        exact absurd rfl hne
    | cons a l =>
      constructor
      · intro hh
        simp only [testMetric, h, Except.error.injEq,
          ValidationError.deviations.injEq] at hh
        exact ⟨hh.symm, by rw [← hh]; simp⟩
      · rintro ⟨rfl, hne⟩
        simp [testMetric, h]
  · intro label lbl tol cs rs j
    constructor
    · intro hmem
      obtain ⟨p, hp, heq⟩ := List.mem_map.1 hmem
      obtain ⟨hen, hq⟩ := List.mem_filter.1 hp
      obtain ⟨h1, h2⟩ := Prod.mk.injEq .. ▸ heq
      refine ⟨h1.symm, p.2.1, p.2.2, ?_, hq⟩
      rw [← h2]
      simpa using List.mem_enum_iff_getElem?.1 hen
    · rintro ⟨rfl, cv, rv, hget, hex⟩
      refine List.mem_map.2 ⟨(j, (cv, rv)), List.mem_filter.2 ⟨?_, hex⟩, rfl⟩
      exact List.mem_enum_iff_getElem?.2 (by simpa using hget)

/-- C8 (witness): the demonstration technology exposes no reference CAPEX,
so `test_capex` is a no-op on it; and a computed row [100, 200] checked
against reference [100, 150] at 1% relative tolerance enumerates exactly
the deviating year-index 1. -/
theorem test_capex_lcoe_validation_witness :
    test_capex .replay demoSource 1 demoTech
      (computeTables demoTech demoFin [1] demoRaw) = .ok (.ok ()) ∧
    ("Class 1", 1) ∈ rowMismatches "Class 1" (1/100) [100, 200] [100, 150] :=
  ⟨test_capex_lcoe_validation.1 .replay demoSource 1 demoTech _ rfl,
   (test_capex_lcoe_validation.2.2.2.2.2.2 "Class 1" "Class 1" (1/100)
      [100, 200] [100, 150] 1).2
     ⟨rfl, 200, 150, rfl, by norm_num [exceedsTol, abs]⟩⟩

/-- C10: the Aggregator's `process()` runs every supplied technology and,
for each successful run, automatically records the CAPEX and LCOE
reference comparisons, without the caller separately requesting them. -/
theorem process_auto_validates
    (v : ExtractionVariant) (src : Source) (tol : ℚ) (ts : List TechDef)
    (t : TechDef) (hmem : t ∈ ts) :
    processOne v src tol t ∈ processAll v src tol ts ∧
    ∀ res : Results, runProc v src t = .ok res →
      (processOne v src tol t).capexCheck = some (test_capex v src tol t res)
        ∧
      (processOne v src tol t).lcoeCheck =
        some (test_lcoe v src tol t res) := by
  refine ⟨List.mem_map_of_mem _ hmem, ?_⟩
  intro res h
  simp [processOne, h]

/-- C10 (witness): processing the singleton collection holding the
demonstration technology yields its outcome with both reference
comparisons attached. -/
theorem process_auto_validates_witness :
    processOne .replay demoSource 1 demoTech ∈
      processAll .replay demoSource 1 [demoTech] ∧
    (processOne .replay demoSource 1 demoTech).capexCheck =
      some (test_capex .replay demoSource 1 demoTech
        (computeTables demoTech demoFin [1] demoRaw)) ∧
    (processOne .replay demoSource 1 demoTech).lcoeCheck =
      some (test_lcoe .replay demoSource 1 demoTech
        (computeTables demoTech demoFin [1] demoRaw)) :=
  ⟨(process_auto_validates .replay demoSource 1 [demoTech] demoTech
      (by simp)).1,
   (process_auto_validates .replay demoSource 1 [demoTech] demoTech
      (by simp)).2 _ rfl⟩

end ATBCalc
